import Mathlib

/-!
Verification development for the AI-provider waterfall orchestration with
privacy-preserving schema extraction of the excel-manager repository.

The TypeScript core is shallowly embedded: JavaScript runtime values are the
inductive `JSValue`, JS records (`Record<string, string>`) are association
lists updated with JS insertion-order semantics (`recordSet`), provider
adapters are functions returning an explicit settled outcome, and the
orchestrator's asynchronous race against a timer is modelled by recording the
number of milliseconds after which each adapter's promise settles.
-/

set_option maxRecDepth 4096

namespace ExcelManager

/-- A JavaScript runtime value as it can appear in a spreadsheet cell or in a
JSON request body: `null`, `undefined`, a number, a boolean, a string, or a
`Date` object (carried as its millisecond timestamp).  Numbers are modelled as
integers; no claim in this development depends on fractional or non-finite
numeric values. -/
inductive JSValue where
  | null
  | undef
  | num (n : Int)
  | bool (b : Bool)
  | str (s : String)
  | date (ms : Int)
  deriving DecidableEq, Repr

/-- The JS `typeof` operator restricted to `JSValue`.  `typeof null` is
`"object"`, and a `Date` instance is also an `"object"`. -/
def jsTypeof : JSValue → String
  | .null => "object"
  | .undef => "undefined"
  | .num _ => "number"
  | .bool _ => "boolean"
  | .str _ => "string"
  | .date _ => "object"

/-- `listInfixAux t s` is true when the character list `t` occurs contiguously
in `s`: `t` is a prefix of some suffix of `s`. -/
def listInfixAux (t : List Char) : List Char → Bool
  | [] => t.isEmpty
  | c :: rest => t.isPrefixOf (c :: rest) || listInfixAux t rest

/-- Substring test: `strContains s t` is true when `t` occurs contiguously in
`s` (the Boolean counterpart of JS `String.prototype.includes`). -/
def strContains (s t : String) : Bool :=
  listInfixAux t.toList s.toList

/-- JS `s || d` for a string `s`: the empty string is falsy. -/
def orFalsy (s d : String) : String :=
  if s = "" then d else s

/-- JS `o || d` where `o` is a possibly-`undefined` string property. -/
def orFalsyOpt (o : Option String) (d : String) : String :=
  match o with
  | some s => orFalsy s d
  | none => d

/-- JS template-literal interpolation `${o}` of a possibly-`undefined`
string property: `undefined` prints as `"undefined"`. -/
def templateStrOpt : Option String → String
  | some s => s
  | none => "undefined"

/-- Truthiness test for an optional string request-body field, as used by the
entrypoint's `!query` check: absent (`undefined`) and the empty string are
falsy, every other string is truthy. -/
def jsFalsyStrOpt : Option String → Bool
  | none => true
  | some s => s == ""

/-- Minimal model of `JSON.stringify` on a `JSValue`.  `undefined` inside an
array serializes as `null`.  A `Date` is rendered from its timestamp (the host
renders an ISO string; no claim depends on the exact rendering of dates). -/
def jsonStringify : JSValue → String
  | .null => "null"
  | .undef => "null"
  | .num n => toString n
  | .bool b => if b then "true" else "false"
  | .str s => "\"" ++ s ++ "\""
  | .date ms => "\"" ++ toString ms ++ "\""

/-- `JSON.stringify` of a row (array of cell values). -/
def jsonStringifyRow (row : List JSValue) : String :=
  "[" ++ String.intercalate "," (row.map jsonStringify) ++ "]"

/-- `JSON.stringify` of an array of rows. -/
def jsonStringifyRows (rows : List (List JSValue)) : String :=
  "[" ++ String.intercalate "," (rows.map jsonStringifyRow) ++ "]"

/-- One assignment `r[k] = v` on a JS record represented as an association
list in insertion order: an existing key keeps its position and gets the new
value, a new key is appended. -/
def recordSet (r : List (String × String)) (k v : String) : List (String × String) :=
  if r.any (fun p => p.1 == k) then
    r.map (fun p => if p.1 == k then (k, v) else p)
  else
    r ++ [(k, v)]

/-- `src/types/ai.ts` — `SpreadsheetSchema`: column headers, the per-column
inferred type record, and the optional `sampleData` array of type tags for the
single sample row. -/
structure SpreadsheetSchema where
  headers : List String
  columnTypes : List (String × String)
  sampleData : Option (List String) := none
  deriving DecidableEq, Repr

/-- `src/types/ai.ts` — `AIResponse`, the normalized result shape shared by
every provider adapter and the orchestrator. -/
structure AIResponse where
  success : Bool
  type : String
  code : Option String := none
  explanation : Option String := none
  error : Option String := none
  provider : Option String := none
  deriving DecidableEq, Repr

/-- `src/services/ai-service.ts` — `extractSchema(headers, firstRow?)`: each
column's type is `typeof firstRow[index]` (JS indexing past the end of the row
yields `undefined`); without a sample row every column defaults to `"string"`.
`sampleData` is `firstRow.map(v => typeof v)` when a row is given. -/
def extractSchema (headers : List String) (firstRow : Option (List JSValue)) :
    SpreadsheetSchema :=
  match firstRow with
  | some row =>
      { headers := headers
        columnTypes := headers.enum.foldl
          (fun r p => recordSet r p.2 (jsTypeof (row.getD p.1 JSValue.undef))) []
        sampleData := some (row.map jsTypeof) }
  | none =>
      { headers := headers
        columnTypes := headers.foldl (fun r h => recordSet r h "string") []
        sampleData := none }

/-- The two host string predicates the type-inference code delegates to:
`dateParseOk s` models `!isNaN(Date.parse(s))` and `numberOk s` models
`!isNaN(Number(s))`.  They are kept abstract because they are JavaScript
builtins, not code of this repository; theorems state the facts they need
about them as hypotheses. -/
structure JSStringEnv where
  dateParseOk : String → Bool
  numberOk : String → Bool

/-- `src/unnamed/part_016` — `inferType(value)`: `null`/`undefined` map to
`"null"`, number and boolean primitives to their typeof names, `Date`
instances to `"date"`, and a string is a `"date"` when `Date.parse` accepts
it, else a `"number"` when `Number` accepts it and it is non-blank, else a
`"string"`. -/
def inferType (env : JSStringEnv) : JSValue → String
  | .null => "null"
  | .undef => "null"
  | .num _ => "number"
  | .bool _ => "boolean"
  | .date _ => "date"
  | .str s =>
      if env.dateParseOk s then "date"
      else if env.numberOk s && !(s.trim == "") then "number"
      else "string"

/-- `src/unnamed/part_016` — `extractSafeSchema(headers, firstRow?)`: per-column
types via `inferType`, and no `sampleData` field at all. -/
def extractSafeSchema (env : JSStringEnv) (headers : List String)
    (firstRow : Option (List JSValue)) : SpreadsheetSchema :=
  match firstRow with
  | some row =>
      { headers := headers
        columnTypes := headers.enum.foldl
          (fun r p => recordSet r p.2 (inferType env (row.getD p.1 JSValue.undef))) []
        sampleData := none }
  | none =>
      { headers := headers
        columnTypes := headers.foldl (fun r h => recordSet r h "string") []
        sampleData := none }

/-- `src/services/ai-service.ts` / `src/unnamed/part_016` —
`validateSchemaOnly(schema)`: reject when `headers` is empty, or when
`sampleData` is present with `length > 1`. -/
def validateSchemaOnly (schema : SpreadsheetSchema) : Bool :=
  if schema.headers.length = 0 then false
  else
    match schema.sampleData with
    | some sd => if sd.length > 1 then false else true
    | none => true

/-- A thrown JavaScript error as the orchestrator observes it: its `message`
and the optional HTTP `status` property some transport errors carry. -/
structure JSError where
  message : String
  status : Option Nat := none
  deriving DecidableEq, Repr

/-- How a settled adapter promise ended: fulfilled with an `AIResponse` or
rejected with a thrown error. -/
inductive AttemptOutcome where
  | resolved (r : AIResponse)
  | thrown (e : JSError)
  deriving DecidableEq, Repr

/-- One adapter invocation's behavior: the wall-clock milliseconds after which
its promise settles and the outcome it settles with.  An adapter that never
settles within any timeout of interest is represented by a `duration` at or
beyond that timeout. -/
structure AdapterBehavior where
  duration : Nat
  outcome : AttemptOutcome
  deriving DecidableEq, Repr

/-- `src/unnamed/part_016` — one entry of the `PROVIDERS` configuration:
display name, priority rationale, and the adapter capability.  The handler is
kept abstract (the real ones perform network I/O), which also lets the
universally quantified properties range over arbitrary mock adapters. -/
structure ProviderSpec where
  name : String
  description : String
  handler : String → SpreadsheetSchema → AdapterBehavior

/-- `src/unnamed/part_016` — `RETRY_CONFIG`. -/
structure RetryConfig where
  maxAttempts : Nat
  timeout : Nat
  deriving DecidableEq, Repr

/-- `src/unnamed/part_016` — `RETRY_CONFIG = { maxAttempts: 1, timeout: 15000 }`. -/
def RETRY_CONFIG : RetryConfig := { maxAttempts := 1, timeout := 15000 }

/-- `src/unnamed/part_016` — `FALLBACK_ERROR_CODES`. -/
def FALLBACK_ERROR_CODES : List Nat := [429, 503, 504, 500, 502]

/-- `src/unnamed/part_016` — `executeWithTimeout(promise, timeout, providerName)`:
`Promise.race` of the adapter promise against a timer that rejects with
`"<name> request timeout after <timeout>ms"`.  The adapter wins the race
exactly when its promise settles strictly before the timer fires. -/
def executeWithTimeout (behavior : AdapterBehavior) (timeout : Nat)
    (providerName : String) : AttemptOutcome :=
  if behavior.duration < timeout then behavior.outcome
  else .thrown
    { message := providerName ++ " request timeout after " ++ toString timeout ++ "ms"
      status := none }

/-- `src/unnamed/part_016` — `shouldFallback(error)`: a truthy HTTP status in
`FALLBACK_ERROR_CODES`, or a lowercased message containing one of the four
keywords, classifies the error as a fast-fail trigger. -/
def shouldFallback (error : JSError) : Bool :=
  if (match error.status with
      | some s => s ≠ 0 && FALLBACK_ERROR_CODES.contains s
      | none => false) then
    true
  else
    let errorMessage := error.message.toLower
    if strContains errorMessage "rate limit"
        || strContains errorMessage "timeout"
        || strContains errorMessage "unavailable"
        || strContains errorMessage "quota" then
      true
    else
      false

/-- `src/unnamed/part_016` — the per-attempt diagnostic record
`{ provider, error, duration }` pushed onto `attemptLog`. -/
structure AttemptRecord where
  provider : String
  error : String
  duration : Nat
  deriving DecidableEq, Repr

/-- `src/unnamed/part_016` — `generateFailureMessage(attemptLog)`: every
attempt rendered `"<provider>: <error>"`, joined by `" | "`, prefixed with
`"All AI providers failed. "`. -/
def generateFailureMessage (attemptLog : List AttemptRecord) : String :=
  "All AI providers failed. "
    ++ String.intercalate " | " (attemptLog.map (fun a => a.provider ++ ": " ++ a.error))

/-- The provider loop of `makeAIRequestWithFallback` in `src/unnamed/part_016`,
with the accumulated `attemptLog` made an explicit argument.  Besides the
source's `AIResponse` it returns the list of names of the providers actually
invoked, in invocation order, so that the zero-invocation and
first-success-wins properties can be stated.  The recorded duration is
`Date.now() - startTime`, i.e. the settle time capped by the timeout. -/
def runWaterfall (sf : JSError → Bool) (query : String) (schema : SpreadsheetSchema) :
    List ProviderSpec → List AttemptRecord → AIResponse × List String
  | [], attemptLog =>
      ({ success := false, type := "error",
         error := some (generateFailureMessage attemptLog) }, [])
  | p :: rest, attemptLog =>
      let b := p.handler query schema
      match executeWithTimeout b RETRY_CONFIG.timeout p.name with
      | .resolved r =>
          if r.success then
            ({ r with provider := some p.name }, [p.name])
          else
            let next := runWaterfall sf query schema rest (attemptLog ++
              [{ provider := p.name, error := orFalsyOpt r.error "Unknown error",
                 duration := min b.duration RETRY_CONFIG.timeout }])
            (next.1, p.name :: next.2)
      | .thrown e =>
          let log2 := attemptLog ++
            [{ provider := p.name, error := orFalsy e.message "Unknown exception",
               duration := min b.duration RETRY_CONFIG.timeout }]
          if sf e then
            let next := runWaterfall sf query schema rest log2
            (next.1, p.name :: next.2)
          else
            let next := runWaterfall sf query schema rest log2
            (next.1, p.name :: next.2)

/-- `src/unnamed/part_016` — `makeAIRequestWithFallback(query, schema)`:
security-validate the schema, then run the waterfall over the provider list
with an empty attempt log.  The source fixes `providers := PROVIDERS` and
`sf := shouldFallback`; both are parameters here so the properties can range
over mock adapters and over replacement classifiers.  The second component of
the result is the instrumentation trace of invoked provider names. -/
def makeAIRequestWithFallback (providers : List ProviderSpec) (sf : JSError → Bool)
    (query : String) (schema : SpreadsheetSchema) : AIResponse × List String :=
  if validateSchemaOnly schema = false then
    ({ success := false, type := "error",
       error := some "Security violation: Schema contains actual data rows" }, [])
  else
    runWaterfall sf query schema providers []

/-- The outcome the orchestrator observes for one provider at a given query
and schema: the adapter's settled outcome filtered through the timeout race. -/
def attemptOutcomeOf (p : ProviderSpec) (query : String) (schema : SpreadsheetSchema) :
    AttemptOutcome :=
  executeWithTimeout (p.handler query schema) RETRY_CONFIG.timeout p.name

/-- Whether the orchestrator sees provider `p` succeed at this query/schema. -/
def attemptSuccess (p : ProviderSpec) (query : String) (schema : SpreadsheetSchema) : Bool :=
  match attemptOutcomeOf p query schema with
  | .resolved r => r.success
  | .thrown _ => false

/-- The `AttemptRecord` the loop pushes for a failing provider `p`. -/
def attemptRecordOf (p : ProviderSpec) (query : String) (schema : SpreadsheetSchema) :
    AttemptRecord :=
  match attemptOutcomeOf p query schema with
  | .resolved r =>
      { provider := p.name, error := orFalsyOpt r.error "Unknown error",
        duration := min (p.handler query schema).duration RETRY_CONFIG.timeout }
  | .thrown e =>
      { provider := p.name, error := orFalsy e.message "Unknown exception",
        duration := min (p.handler query schema).duration RETRY_CONFIG.timeout }

/-- `src/services/ai-service.ts` — one entry of its `PROVIDERS` list: a name
and the adapter capability.  This simpler service has no timeout race, so a
handler is modelled directly by its settled outcome. -/
structure SimpleProvider where
  name : String
  handler : String → SpreadsheetSchema → AttemptOutcome

/-- The provider loop of `makeAIRequest` in `src/services/ai-service.ts`, with
the accumulated `errors` array explicit.  A returned failure pushes
`` `${name}: ${response.error}` `` (template interpolation, so an `undefined`
error prints as `"undefined"`); a thrown error pushes
`` `${name}: ${error.message}` ``. -/
def simpleWaterfall (query : String) (schema : SpreadsheetSchema) :
    List SimpleProvider → List String → AIResponse
  | [], errors =>
      { success := false, type := "error",
        error := some ("All AI providers failed. Errors: " ++ String.intercalate " | " errors) }
  | p :: rest, errors =>
      match p.handler query schema with
      | .resolved r =>
          if r.success then r
          else simpleWaterfall query schema rest
            (errors ++ [p.name ++ ": " ++ templateStrOpt r.error])
      | .thrown e =>
          simpleWaterfall query schema rest (errors ++ [p.name ++ ": " ++ e.message])

/-- `src/services/ai-service.ts` — `makeAIRequest(query, schema)`: try each
provider in sequence, return the first successful response verbatim, and
aggregate every failure into a single error result.  It performs no schema
validation and no timeout race. -/
def makeAIRequest (providers : List SimpleProvider) (query : String)
    (schema : SpreadsheetSchema) : AIResponse :=
  simpleWaterfall query schema providers []

/-- The observable outcome of one call of the API route handler: the HTTP
status, the JSON body, and (instrumentation) whether the schema extractor and
orchestrator were reached. -/
structure RouteResult where
  status : Nat
  body : AIResponse
  orchestratorInvoked : Bool
  deriving DecidableEq, Repr

/-- `src/app/api/ai/route.ts` — `POST`: destructure `{query, headers, firstRow}`
from the JSON body; when `!query || !headers` holds (absent or empty-string
`query`, absent `headers` — a present array, even empty, is truthy) respond
400 with the missing-parameters error without touching the extractor or the
orchestrator; otherwise extract the schema and forward to `makeAIRequest` of
`src/services/ai-service.ts`, answering 200 with its response. -/
def POST (providers : List SimpleProvider) (query : Option String)
    (headers : Option (List String)) (firstRow : Option (List JSValue)) : RouteResult :=
  if jsFalsyStrOpt query || headers.isNone then
    { status := 400
      body := { success := false, type := "error",
                error := some "Missing required parameters: query and headers are required" }
      orchestratorInvoked := false }
  else
    { status := 200
      body := makeAIRequest providers (query.getD "") (extractSchema (headers.getD []) firstRow)
      orchestratorInvoked := true }

/-- The schema shape the full-data variant of the route builds:
`{...schema, rowCount, sampleRows}` with `sampleRows` the first 20 raw rows. -/
structure EnhancedSchema where
  headers : List String
  columnTypes : List (String × String)
  sampleData : Option (List String)
  rowCount : Nat
  sampleRows : List (List JSValue)
  deriving DecidableEq, Repr

/-- `src/unnamed/part_000` — the spread `{...schema, rowCount: rows?.length || 0,
sampleRows: rows?.slice(0, 20) || []}` of the first `POST` variant. -/
def enhanceSchema (schema : SpreadsheetSchema) (rows : Option (List (List JSValue))) :
    EnhancedSchema :=
  { headers := schema.headers
    columnTypes := schema.columnTypes
    sampleData := schema.sampleData
    rowCount := (rows.map List.length).getD 0
    sampleRows := (rows.getD []).take 20 }

/-- What the full-data route variant does with an accepted request: either the
400 rejection, or the query and enhanced schema it hands to the AI service. -/
inductive FullDataRoute where
  | rejected (status : Nat) (body : AIResponse)
  | forwarded (query : String) (schema : EnhancedSchema)
  deriving Repr

/-- `src/unnamed/part_000` — the first `POST` variant: destructure
`{query, headers, rows}`, apply the same `!query || !headers` guard, build
`schema = extractSchema(headers, rows && rows.length > 0 ? rows[0] : undefined)`,
enhance it with `rowCount` and the first 20 raw `sampleRows`, and forward
query and enhanced schema to the AI service. -/
def POST_fullData (query : Option String) (headers : Option (List String))
    (rows : Option (List (List JSValue))) : FullDataRoute :=
  if jsFalsyStrOpt query || headers.isNone then
    .rejected 400
      { success := false, type := "error",
        error := some "Missing required parameters: query and headers are required" }
  else
    let firstRow : Option (List JSValue) :=
      match rows with
      | some (r :: _) => some r
      | _ => none
    let schema := extractSchema (headers.getD []) firstRow
    .forwarded (query.getD "") (enhanceSchema schema rows)

/-- `src/services/providers/groq.ts` (the full-data variant of
`makeGroqRequest`) — the `systemPrompt` template literal: it interpolates the
joined headers (`'None'` when the join is empty), the row count, and
`JSON.stringify` of the first five `sampleRows` — the raw cell values. -/
def groqSystemPromptData (schema : EnhancedSchema) : String :=
  "You are an Excel formula and data analysis expert with access to ACTUAL spreadsheet data.\nWhen asked about data, analyze the rows provided and give COMPUTED ANSWERS, not just formulas.\n\nIMPORTANT:\n- Use fuzzy matching for names (e.g., \"acme\" should match \"Acme Corp\", \"Acme Inc\", etc.)\n- When asked for totals, sums, or counts - CALCULATE and return the actual number\n- Provide both the formula AND the computed result when applicable\n- Look at the actual data values to understand context\n\nAvailable data:\nHeaders: "
    ++ orFalsy (String.intercalate ", " schema.headers) "None"
    ++ "\nRow count: " ++ toString schema.rowCount
    ++ "\nSample data: " ++ jsonStringifyRows (schema.sampleRows.take 5)
    ++ "\n\nReturn a JSON response with:\n\x7b\n  \"type\": \"formula\",\n  \"code\": \"the Excel formula\",\n  \"explanation\": \"brief explanation with computed result if applicable\"\n\x7d"

/-- `src/services/providers/groq.ts` (full-data variant) — the `userPrompt`
template literal. -/
def groqUserPromptData (query : String) : String :=
  "User Request: " ++ query
    ++ "\n\nAnalyze the spreadsheet data and generate the appropriate Excel formula. If the request asks for a calculation, compute the actual result from the sample data provided."

/-- `src/services/providers/groq.ts` (full-data variant) — the `messages`
array of the request body sent to the Groq completion endpoint: the system
prompt and the user prompt, as (role, content) pairs. -/
def groqPayloadMessages (query : String) (schema : EnhancedSchema) :
    List (String × String) :=
  [("system", groqSystemPromptData schema), ("user", groqUserPromptData query)]

/-- The adapter the orchestrator effectively sees in place of one whose
promise does not settle before the timeout: an immediate failure result
carrying the timeout error message of `executeWithTimeout`. -/
def timeoutSurrogate (p : ProviderSpec) : ProviderSpec :=
  { p with handler := fun _ _ =>
      { duration := 0
        outcome := .resolved
          { success := false, type := "error",
            error := some (p.name ++ " request timeout after "
              ++ toString RETRY_CONFIG.timeout ++ "ms") } } }

/-- Every type tag produced by `inferType` is one of the five documented tags. -/
lemma inferType_tag_mem (env : JSStringEnv) (v : JSValue) :
    (["number", "string", "boolean", "date", "null"].contains (inferType env v)) = true := by
  cases v <;> simp only [inferType] <;> try decide
  rename_i s
  cases hd : env.dateParseOk s <;> cases hn : (env.numberOk s && !(s.trim == "")) <;> decide

/-- A JS record assignment preserves a pointwise property of the entries,
provided the assigned entry satisfies it. -/
lemma recordSet_all {P : String × String → Bool} {r : List (String × String)}
    {k v : String} (hr : r.all P = true) (hv : P (k, v) = true) :
    (recordSet r k v).all P = true := by
  unfold recordSet
  rw [List.all_eq_true] at hr
  split
  · rw [List.all_eq_true]
    intro p hp
    rw [List.mem_map] at hp
    obtain ⟨a, ha, rfl⟩ := hp
    by_cases hk : a.1 == k
    · simp [hk, hv]
    · rw [if_neg hk]
      exact hr a ha
  · rw [List.all_eq_true]
    intro p hp
    rcases List.mem_append.mp hp with hp | hp
    · exact hr p hp
    · rw [List.mem_singleton] at hp
      subst hp
      exact hv

/-- Folding JS record assignments preserves a pointwise property of the
entries when every assigned value satisfies it. -/
lemma foldl_recordSet_all {α : Type} (P : String × String → Bool)
    (key : α → String) (val : α → String) (l : List α)
    (hval : ∀ a : α, P (key a, val a) = true) :
    ∀ init : List (String × String), init.all P = true →
      (l.foldl (fun r a => recordSet r (key a) (val a)) init).all P = true := by
  induction l with
  | nil => intro init h; simpa using h
  | cons a l ih =>
      intro init h
      simp only [List.foldl_cons]
      exact ih _ (recordSet_all h (hval a))

/-- C6 (counterexample).  The claim says `extractSchema(['A'],[null])` yields
`columnTypes = {A:'null'}`; in the code the column type is `typeof null`,
which is `"object"`, so the claim fails at this concrete input. -/
theorem extractSchema_null_gives_object :
    (extractSchema ["A"] (some [JSValue.null])).columnTypes = [("A", "object")] ∧
    (extractSchema ["A"] (some [JSValue.null])).columnTypes ≠ [("A", "null")] := by
  decide

/-- C6 (amended).  `extractSchema` infers each column's type as JS `typeof` of
the sample value (defaulting to `"string"` with no sample row): the
`[42,'hello']` and no-sample examples come out as claimed, but `[null]` yields
`"object"` and `['2024-01-15']` yields `"string"`.  The claimed priority-order
inference (null, number, boolean, Date, date-parsable string, non-blank
numeric string, else string) is implemented by `inferType` and used by
`extractSafeSchema`, under which all four examples come out as the claim
states.  The hypotheses record the facts about the JS `Date.parse` and
`Number` builtins the examples need. -/
theorem extractSchema_typeof_inferType_priority (env : JSStringEnv)
    (h1 : env.dateParseOk "2024-01-15" = true)
    (h2 : env.dateParseOk "hello" = false)
    (h3 : env.numberOk "hello" = false) :
    (extractSchema ["A", "B"] (some [JSValue.num 42, JSValue.str "hello"])).columnTypes
        = [("A", "number"), ("B", "string")] ∧
    (extractSchema ["A"] (some [JSValue.null])).columnTypes = [("A", "object")] ∧
    (extractSchema ["A"] (some [JSValue.str "2024-01-15"])).columnTypes = [("A", "string")] ∧
    (extractSchema ["A"] none).columnTypes = [("A", "string")] ∧
    (extractSafeSchema env ["A", "B"] (some [JSValue.num 42, JSValue.str "hello"])).columnTypes
        = [("A", "number"), ("B", "string")] ∧
    (extractSafeSchema env ["A"] (some [JSValue.null])).columnTypes = [("A", "null")] ∧
    (extractSafeSchema env ["A"] (some [JSValue.str "2024-01-15"])).columnTypes
        = [("A", "date")] ∧
    (extractSafeSchema env ["A"] none).columnTypes = [("A", "string")] ∧
    inferType env JSValue.null = "null" ∧
    inferType env JSValue.undef = "null" ∧
    (∀ n : Int, inferType env (JSValue.num n) = "number") ∧
    (∀ b : Bool, inferType env (JSValue.bool b) = "boolean") ∧
    (∀ ms : Int, inferType env (JSValue.date ms) = "date") ∧
    (∀ s : String, env.dateParseOk s = true → inferType env (JSValue.str s) = "date") ∧
    (∀ s : String, env.dateParseOk s = false → env.numberOk s = true → (s.trim == "") = false →
      inferType env (JSValue.str s) = "number") ∧
    (∀ s : String, env.dateParseOk s = false →
      (env.numberOk s = false ∨ (s.trim == "") = true) →
      inferType env (JSValue.str s) = "string") := by
  refine ⟨by decide, by decide, by decide, by decide, ?_, ?_, ?_, by rfl,
    rfl, rfl, fun n => rfl, fun b => rfl, fun ms => rfl, ?_, ?_, ?_⟩
  · simp [extractSafeSchema, List.enum, List.enumFrom, recordSet, inferType, h2, h3]
  · rfl
  · simp [extractSafeSchema, List.enum, List.enumFrom, recordSet, inferType, h1]
  · intro s hs
    simp [inferType, hs]
  · intro s hd hn ht
    simp [inferType, hd, hn, ht]
  · intro s hd hns
    rcases hns with hn | ht
    · simp [inferType, hd, hn]
    · simp [inferType, hd, ht]

/-- C6 (witness).  The amended theorem instantiated at a concrete string
environment in which `Date.parse` accepts exactly `"2024-01-15"` and `Number`
accepts nothing. -/
theorem extractSchema_typeof_inferType_priority_witness :
    ((⟨fun s => s == "2024-01-15", fun _ => false⟩ : JSStringEnv).dateParseOk "2024-01-15" = true ∧
     (⟨fun s => s == "2024-01-15", fun _ => false⟩ : JSStringEnv).dateParseOk "hello" = false ∧
     (⟨fun s => s == "2024-01-15", fun _ => false⟩ : JSStringEnv).numberOk "hello" = false) ∧
    (extractSafeSchema ⟨fun s => s == "2024-01-15", fun _ => false⟩ ["A"]
        (some [JSValue.str "2024-01-15"])).columnTypes = [("A", "date")] :=
  ⟨⟨by decide, by decide, by decide⟩,
   (extractSchema_typeof_inferType_priority
      ⟨fun s => s == "2024-01-15", fun _ => false⟩
      (by decide) (by decide) (by decide)).2.2.2.2.2.2.1⟩

/-- C7 (counterexample).  The claim says every value of the `columnTypes` of a
schema returned by `extractSchema` is among the five documented tags; at
headers `['A']` with sample row `[null]` the produced tag is `"object"`, which
is not among them. -/
theorem extractSchema_tag_outside_documented_range :
    ((extractSchema ["A"] (some [JSValue.null])).columnTypes).all
      (fun p => ["number", "string", "boolean", "date", "null"].contains p.2) = false := by
  decide

/-- C7 (amended).  For every headers sequence and optional sample row, every
value of the `columnTypes` mapping produced by `extractSafeSchema` (which
infers with `inferType`) is one of the five tags `number`, `string`,
`boolean`, `date`, `null`; the variant `extractSchema` instead stores raw JS
`typeof` tags, which can also be `"object"` or `"undefined"`. -/
theorem extractSafeSchema_tags_in_documented_range (env : JSStringEnv)
    (headers : List String) (firstRow : Option (List JSValue)) :
    ((extractSafeSchema env headers firstRow).columnTypes).all
      (fun p => ["number", "string", "boolean", "date", "null"].contains p.2) = true := by
  cases firstRow with
  | none =>
      simp only [extractSafeSchema]
      exact foldl_recordSet_all
        (fun p => ["number", "string", "boolean", "date", "null"].contains p.2)
        (fun h => h) (fun _ => "string") headers (fun _ => rfl) [] rfl
  | some row =>
      simp only [extractSafeSchema]
      exact foldl_recordSet_all
        (fun p => ["number", "string", "boolean", "date", "null"].contains p.2)
        (fun p => p.2) (fun p => inferType env (row.getD p.1 JSValue.undef)) headers.enum
        (fun a => inferType_tag_mem env (row.getD a.1 JSValue.undef)) [] rfl

/-- C8 (theorem at the failing input).  `extractSchema` stores the single
sample row as a flat array of per-column type tags, so a two-column sample
produces `sampleData` of length 2, and `validateSchemaOnly` — whose own
comment says the check bounds the number of rows — rejects it: the extractor's
output fails the orchestrator's security check. -/
theorem validateSchemaOnly_rejects_extracted_two_column_schema :
    extractSchema ["A", "B"] (some [JSValue.num 42, JSValue.str "hello"]) =
      { headers := ["A", "B"], columnTypes := [("A", "number"), ("B", "string")],
        sampleData := some ["number", "string"] } ∧
    validateSchemaOnly
      (extractSchema ["A", "B"] (some [JSValue.num 42, JSValue.str "hello"])) = false := by
  decide

/-- C9 (counterexample).  The claim says a POST with empty `headers` is
rejected with HTTP 400 before the orchestrator runs; in JS an empty array is
truthy, so `!query || !headers` does not fire: with `query = "sum column A"`
and `headers = []` the route reaches the extractor and orchestrator and
answers 200 with the orchestrator's aggregate failure. -/
theorem POST_empty_headers_array_not_rejected :
    POST
      [{ name := "Groq",
         handler := fun _ _ => .resolved
           { success := false, type := "error",
             error := some "Groq API key not configured", provider := some "Groq" } }]
      (some "sum column A") (some []) none =
      { status := 200,
        body := { success := false, type := "error",
                  error := some "All AI providers failed. Errors: Groq: Groq API key not configured" },
        orchestratorInvoked := true } := by
  rfl

/-- C9 (amended).  A POST whose `query` is absent or the empty string, or
whose `headers` field is absent, is answered with HTTP 400 and the
missing-parameters error body, without invoking the extractor or the
orchestrator; a present-but-empty `headers` array passes the guard (an empty
JS array is truthy) and proceeds to the orchestrator. -/
theorem POST_missing_params_rejected (providers : List SimpleProvider)
    (query : Option String) (headers : Option (List String))
    (firstRow : Option (List JSValue))
    (h : jsFalsyStrOpt query = true ∨ headers = none) :
    POST providers query headers firstRow =
      { status := 400,
        body := { success := false, type := "error",
                  error := some "Missing required parameters: query and headers are required" },
        orchestratorInvoked := false } := by
  unfold POST
  rcases h with h | h
  · simp [h]
  · subst h
    simp [Option.isNone]

/-- C9 (witness).  The amended theorem applied to a request with `query`
absent. -/
theorem POST_missing_params_rejected_witness :
    (jsFalsyStrOpt none = true ∨ (none : Option (List String)) = none) ∧
    POST [] none none none =
      { status := 400,
        body := { success := false, type := "error",
                  error := some "Missing required parameters: query and headers are required" },
        orchestratorInvoked := false } :=
  ⟨Or.inl rfl, POST_missing_params_rejected [] none none none (Or.inl rfl)⟩

/-- C1 (theorem at the failing input).  The full-data route variant accepts
`{query:'sum column A', headers:['A'], rows:[['secret']]}` and forwards an
enhanced schema whose `sampleRows` carry the raw row, and the Groq system
prompt built from that schema — part of the payload sent to the external
completion service — contains the verbatim cell value `"secret"`, contrary to
the claim that only the schema and query are ever sent. -/
theorem groq_payload_contains_verbatim_cell_value :
    POST_fullData (some "sum column A") (some ["A"]) (some [[JSValue.str "secret"]]) =
      .forwarded "sum column A"
        { headers := ["A"], columnTypes := [("A", "string")],
          sampleData := some ["string"], rowCount := 1,
          sampleRows := [[JSValue.str "secret"]] } ∧
    strContains
      (groqSystemPromptData
        { headers := ["A"], columnTypes := [("A", "string")],
          sampleData := some ["string"], rowCount := 1,
          sampleRows := [[JSValue.str "secret"]] }) "secret" = true ∧
    (groqPayloadMessages "sum column A"
        { headers := ["A"], columnTypes := [("A", "string")],
          sampleData := some ["string"], rowCount := 1,
          sampleRows := [[JSValue.str "secret"]] }).any
      (fun m => strContains m.2 "secret") = true := by
  refine ⟨rfl, ?_, ?_⟩ <;> decide

/-- Unfolding of the loop on the empty provider list. -/
lemma runWaterfall_nil (sf : JSError → Bool) (query : String)
    (schema : SpreadsheetSchema) (log : List AttemptRecord) :
    runWaterfall sf query schema [] log =
      ({ success := false, type := "error",
         error := some (generateFailureMessage log) }, []) := rfl

/-- One-step unfolding of the loop on a non-empty provider list. -/
lemma runWaterfall_cons (sf : JSError → Bool) (query : String)
    (schema : SpreadsheetSchema) (p : ProviderSpec) (rest : List ProviderSpec)
    (log : List AttemptRecord) :
    runWaterfall sf query schema (p :: rest) log =
      match executeWithTimeout (p.handler query schema) RETRY_CONFIG.timeout p.name with
      | .resolved r =>
          if r.success then
            ({ r with provider := some p.name }, [p.name])
          else
            ((runWaterfall sf query schema rest (log ++
                [{ provider := p.name, error := orFalsyOpt r.error "Unknown error",
                   duration := min (p.handler query schema).duration RETRY_CONFIG.timeout }])).1,
             p.name :: (runWaterfall sf query schema rest (log ++
                [{ provider := p.name, error := orFalsyOpt r.error "Unknown error",
                   duration := min (p.handler query schema).duration RETRY_CONFIG.timeout }])).2)
      | .thrown e =>
          if sf e then
            ((runWaterfall sf query schema rest (log ++
                [{ provider := p.name, error := orFalsy e.message "Unknown exception",
                   duration := min (p.handler query schema).duration RETRY_CONFIG.timeout }])).1,
             p.name :: (runWaterfall sf query schema rest (log ++
                [{ provider := p.name, error := orFalsy e.message "Unknown exception",
                   duration := min (p.handler query schema).duration RETRY_CONFIG.timeout }])).2)
          else
            ((runWaterfall sf query schema rest (log ++
                [{ provider := p.name, error := orFalsy e.message "Unknown exception",
                   duration := min (p.handler query schema).duration RETRY_CONFIG.timeout }])).1,
             p.name :: (runWaterfall sf query schema rest (log ++
                [{ provider := p.name, error := orFalsy e.message "Unknown exception",
                   duration := min (p.handler query schema).duration RETRY_CONFIG.timeout }])).2) := rfl

/-- A provider whose attempt the orchestrator sees succeed short-circuits the
loop: the annotated response is returned and nothing after it is invoked. -/
lemma runWaterfall_head_success (sf : JSError → Bool) (query : String)
    (schema : SpreadsheetSchema) (p : ProviderSpec) (rest : List ProviderSpec)
    (log : List AttemptRecord) (r : AIResponse)
    (hE : attemptOutcomeOf p query schema = .resolved r) (hr : r.success = true) :
    runWaterfall sf query schema (p :: rest) log =
      ({ r with provider := some p.name }, [p.name]) := by
  unfold attemptOutcomeOf at hE
  rw [runWaterfall_cons, hE]
  simp [hr]

/-- A provider whose attempt the orchestrator sees fail contributes its
attempt record and its name, and the loop continues with the rest. -/
lemma runWaterfall_head_fail (sf : JSError → Bool) (query : String)
    (schema : SpreadsheetSchema) (p : ProviderSpec) (rest : List ProviderSpec)
    (log : List AttemptRecord) (hfail : attemptSuccess p query schema = false) :
    runWaterfall sf query schema (p :: rest) log =
      ((runWaterfall sf query schema rest (log ++ [attemptRecordOf p query schema])).1,
       p.name :: (runWaterfall sf query schema rest (log ++ [attemptRecordOf p query schema])).2) := by
  unfold attemptSuccess attemptOutcomeOf at hfail
  rw [runWaterfall_cons]
  cases hE : executeWithTimeout (p.handler query schema) RETRY_CONFIG.timeout p.name with
  | resolved r =>
      rw [hE] at hfail
      change r.success = false at hfail
      have hrec : attemptRecordOf p query schema =
          { provider := p.name, error := orFalsyOpt r.error "Unknown error",
            duration := min (p.handler query schema).duration RETRY_CONFIG.timeout } := by
        unfold attemptRecordOf attemptOutcomeOf
        rw [hE]
      rw [hrec]
      simp [hfail]
  | thrown e =>
      have hrec : attemptRecordOf p query schema =
          { provider := p.name, error := orFalsy e.message "Unknown exception",
            duration := min (p.handler query schema).duration RETRY_CONFIG.timeout } := by
        unfold attemptRecordOf attemptOutcomeOf
        rw [hE]
      rw [hrec]
      by_cases hsf : sf e
      · simp [hsf]
      · simp [hsf]

/-- Skipping a failing prefix: the loop over `pre ++ rest` with every provider
of `pre` failing runs the loop over `rest` on the log extended by the prefix's
attempt records, and prepends the prefix's names to the invocation trace. -/
lemma runWaterfall_skip_failing (sf : JSError → Bool) (query : String)
    (schema : SpreadsheetSchema) :
    ∀ (pre rest : List ProviderSpec) (log : List AttemptRecord),
      (∀ p ∈ pre, attemptSuccess p query schema = false) →
      runWaterfall sf query schema (pre ++ rest) log =
        ((runWaterfall sf query schema rest
            (log ++ pre.map (fun p => attemptRecordOf p query schema))).1,
         pre.map (fun p => p.name) ++
           (runWaterfall sf query schema rest
             (log ++ pre.map (fun p => attemptRecordOf p query schema))).2) := by
  intro pre
  induction pre with
  | nil => intro rest log _; simp
  | cons p pre ih =>
      intro rest log hfail
      rw [List.cons_append,
        runWaterfall_head_fail sf query schema p (pre ++ rest) log (hfail p (by simp)),
        ih rest (log ++ [attemptRecordOf p query schema]) (fun a ha => hfail a (by simp [ha]))]
      simp

/-- C2.  If the schema's headers are empty, or its `sampleData` is present
with more than one entry (the code's notion of carrying more than one row of
data), the orchestrator returns the security-violation error result without
invoking any provider adapter: the invocation trace is empty. -/
theorem waterfall_validation_short_circuit (providers : List ProviderSpec)
    (sf : JSError → Bool) (query : String) (schema : SpreadsheetSchema)
    (h : schema.headers = [] ∨ ∃ sd, schema.sampleData = some sd ∧ sd.length > 1) :
    makeAIRequestWithFallback providers sf query schema =
      ({ success := false, type := "error",
         error := some "Security violation: Schema contains actual data rows" }, []) := by
  have hv : validateSchemaOnly schema = false := by
    unfold validateSchemaOnly
    rcases h with h | ⟨sd, hsd, hlen⟩
    · simp [h]
    · by_cases hh : schema.headers.length = 0
      · simp [hh]
      · simp [hh, hsd, hlen]
  unfold makeAIRequestWithFallback
  simp [hv]

/-- C2 (witness).  The orchestrator applied to a schema with empty headers,
with a mock provider list that would succeed were it ever consulted. -/
theorem waterfall_validation_short_circuit_witness :
    (({ headers := [], columnTypes := [], sampleData := none } : SpreadsheetSchema).headers = [] ∨
      ∃ sd, ({ headers := [], columnTypes := [], sampleData := none } :
        SpreadsheetSchema).sampleData = some sd ∧ sd.length > 1) ∧
    makeAIRequestWithFallback
      [{ name := "Groq", description := "Fastest response time",
         handler := fun _ _ =>
           { duration := 1,
             outcome := .resolved
               { success := true, type := "formula" } } }]
      shouldFallback "sum column A"
      { headers := [], columnTypes := [], sampleData := none } =
      ({ success := false, type := "error",
         error := some "Security violation: Schema contains actual data rows" }, []) :=
  ⟨Or.inl rfl,
   waterfall_validation_short_circuit _ shouldFallback "sum column A" _ (Or.inl rfl)⟩

/-- C3.  First success wins: with a valid schema, when every provider of the
prefix `pre` fails and provider `p` is the first whose attempt succeeds with
response `r`, the orchestrator invokes exactly the providers of `pre` followed
by `p` — in order, never touching the adapters after `p` — and returns `r`
annotated with `p`'s name. -/
theorem waterfall_first_success_wins (pre post : List ProviderSpec) (p : ProviderSpec)
    (sf : JSError → Bool) (query : String) (schema : SpreadsheetSchema) (r : AIResponse)
    (hval : validateSchemaOnly schema = true)
    (hfail : ∀ a ∈ pre, attemptSuccess a query schema = false)
    (hE : attemptOutcomeOf p query schema = .resolved r)
    (hr : r.success = true) :
    makeAIRequestWithFallback (pre ++ p :: post) sf query schema =
      ({ r with provider := some p.name }, pre.map (fun a => a.name) ++ [p.name]) := by
  unfold makeAIRequestWithFallback
  rw [hval]
  simp only [Bool.true_eq_false, if_false]
  rw [runWaterfall_skip_failing sf query schema pre (p :: post) [] hfail,
    runWaterfall_head_success sf query schema p post _ r hE hr]

/-- C3 (witness).  Three mock adapters: the first fails with a returned
failure, the second succeeds, the third would also succeed but is never
invoked — the trace contains exactly the first two names. -/
theorem waterfall_first_success_wins_witness :
    makeAIRequestWithFallback
      [{ name := "Groq", description := "Fastest response time",
         handler := fun _ _ =>
           { duration := 5,
             outcome := .resolved
               { success := false, type := "error",
                 error := some "Groq API key not configured" } } },
       { name := "DeepSeek", description := "Best logical reasoning",
         handler := fun _ _ =>
           { duration := 5,
             outcome := .resolved
               { success := true, type := "formula",
                 code := some "=SUM(A:A)" } } },
       { name := "X.AI", description := "Good balance",
         handler := fun _ _ =>
           { duration := 5,
             outcome := .resolved
               { success := true, type := "formula",
                 code := some "=AVERAGE(A:A)" } } }]
      shouldFallback "sum column A"
      { headers := ["A"], columnTypes := [("A", "string")], sampleData := none } =
      ({ success := true, type := "formula", code := some "=SUM(A:A)",
         provider := some "DeepSeek" }, ["Groq", "DeepSeek"]) := by
  have h := waterfall_first_success_wins
    [{ name := "Groq", description := "Fastest response time",
       handler := fun _ _ =>
         { duration := 5,
           outcome := .resolved
             { success := false, type := "error",
               error := some "Groq API key not configured" } } }]
    [{ name := "X.AI", description := "Good balance",
       handler := fun _ _ =>
         { duration := 5,
           outcome := .resolved
             { success := true, type := "formula",
               code := some "=AVERAGE(A:A)" } } }]
    { name := "DeepSeek", description := "Best logical reasoning",
      handler := fun _ _ =>
        { duration := 5,
          outcome := .resolved
            { success := true, type := "formula",
              code := some "=SUM(A:A)" } } }
    shouldFallback "sum column A"
    { headers := ["A"], columnTypes := [("A", "string")], sampleData := none }
    { success := true, type := "formula", code := some "=SUM(A:A)" }
    rfl
    (fun a ha => by
      rw [List.mem_singleton] at ha
      subst ha
      rfl)
    rfl rfl
  exact h.trans (by rfl)

/-- On a provider list every member of which fails, the loop exhausts,
aggregating every attempt record onto the log. -/
lemma runWaterfall_exhausts (sf : JSError → Bool) (query : String)
    (schema : SpreadsheetSchema) (providers : List ProviderSpec)
    (log : List AttemptRecord)
    (hfail : ∀ p ∈ providers, attemptSuccess p query schema = false) :
    runWaterfall sf query schema providers log =
      ({ success := false, type := "error",
         error := some (generateFailureMessage
           (log ++ providers.map (fun p => attemptRecordOf p query schema))) },
       providers.map (fun p => p.name)) := by
  have h2 := runWaterfall_skip_failing sf query schema providers [] log hfail
  rw [List.append_nil] at h2
  rw [h2, runWaterfall_nil]
  simp

/-- C4.  Exhaustion aggregation: with a valid schema, if every provider's
attempt fails (returned failure, thrown error, or timeout), the orchestrator
returns `{success:false, type:'error'}` whose error is
`generateFailureMessage` of the attempt records in adapter order — each
rendered `"<provider>: <error>"` with that provider's specific error message,
joined by `" | "`. -/
theorem waterfall_exhaustion_aggregates (providers : List ProviderSpec)
    (sf : JSError → Bool) (query : String) (schema : SpreadsheetSchema)
    (hval : validateSchemaOnly schema = true)
    (hfail : ∀ p ∈ providers, attemptSuccess p query schema = false) :
    makeAIRequestWithFallback providers sf query schema =
      ({ success := false, type := "error",
         error := some (generateFailureMessage
           (providers.map (fun p => attemptRecordOf p query schema))) },
       providers.map (fun p => p.name)) := by
  unfold makeAIRequestWithFallback
  rw [hval]
  simp only [Bool.true_eq_false, if_false]
  rw [runWaterfall_exhausts sf query schema providers [] hfail]
  simp

/-- C4 (witness).  Two mock adapters with distinct error messages — one
returning a failure, one throwing — aggregate into a single error string
containing both names with their messages, in adapter order. -/
theorem waterfall_exhaustion_aggregates_witness :
    makeAIRequestWithFallback
      [{ name := "Groq", description := "Fastest response time",
         handler := fun _ _ =>
           { duration := 5,
             outcome := .resolved
               { success := false, type := "error",
                 error := some "Groq API key not configured" } } },
       { name := "DeepSeek", description := "Best logical reasoning",
         handler := fun _ _ =>
           { duration := 5,
             outcome := .thrown
               { message := "DeepSeek API error: 429" } } }]
      shouldFallback "sum column A"
      { headers := ["A"], columnTypes := [("A", "string")], sampleData := none } =
      ({ success := false, type := "error",
         error := some "All AI providers failed. Groq: Groq API key not configured | DeepSeek: DeepSeek API error: 429" },
       ["Groq", "DeepSeek"]) := by
  have h := waterfall_exhaustion_aggregates
    [{ name := "Groq", description := "Fastest response time",
       handler := fun _ _ =>
         { duration := 5,
           outcome := .resolved
             { success := false, type := "error",
               error := some "Groq API key not configured" } } },
     { name := "DeepSeek", description := "Best logical reasoning",
       handler := fun _ _ =>
         { duration := 5,
           outcome := .thrown
             { message := "DeepSeek API error: 429" } } }]
    shouldFallback "sum column A"
    { headers := ["A"], columnTypes := [("A", "string")], sampleData := none }
    rfl
    (fun p hp => by
      rcases List.mem_cons.mp hp with h1 | h1
      · subst h1; rfl
      · rw [List.mem_singleton] at h1
        subst h1
        rfl)
  exact h.trans (by rfl)

/-- The timeout error message is never the empty string, so the JS `||`
defaulting never replaces it. -/
lemma timeout_message_ne_empty (nm t : String) :
    nm ++ " request timeout after " ++ t ++ "ms" ≠ "" := by
  intro hcontra
  have h2 := congrArg String.length hcontra
  rw [String.length_append, String.length_append, String.length_append] at h2
  have h3 : (" request timeout after " : String).length = 23 := rfl
  have h4 : ("ms" : String).length = 2 := rfl
  have h5 : ("" : String).length = 0 := rfl
  omega

/-- The aggregated failure message depends on the attempt log only through
each record's provider and error. -/
lemma gfm_proj (log1 log2 : List AttemptRecord)
    (h : log1.map (fun a => (a.provider, a.error)) = log2.map (fun a => (a.provider, a.error))) :
    generateFailureMessage log1 = generateFailureMessage log2 := by
  unfold generateFailureMessage
  have e1 : (fun a : AttemptRecord => a.provider ++ ": " ++ a.error)
      = (fun pr : String × String => pr.1 ++ ": " ++ pr.2) ∘ (fun a => (a.provider, a.error)) := rfl
  have h2 : log1.map (fun a => a.provider ++ ": " ++ a.error)
      = log2.map (fun a => a.provider ++ ": " ++ a.error) := by
    rw [e1, ← List.map_map, ← List.map_map, h]
  rw [h2]

/-- The loop's result depends on the incoming log only through each record's
provider and error (the recorded durations are dropped by
`generateFailureMessage`). -/
lemma runWaterfall_log_proj (sf : JSError → Bool) (query : String)
    (schema : SpreadsheetSchema) :
    ∀ (providers : List ProviderSpec) (log1 log2 : List AttemptRecord),
      log1.map (fun a => (a.provider, a.error)) = log2.map (fun a => (a.provider, a.error)) →
      runWaterfall sf query schema providers log1 = runWaterfall sf query schema providers log2 := by
  intro providers
  induction providers with
  | nil =>
      intro log1 log2 h
      rw [runWaterfall_nil, runWaterfall_nil, gfm_proj log1 log2 h]
  | cons p rest ih =>
      intro log1 log2 h
      rw [runWaterfall_cons, runWaterfall_cons]
      cases hE : executeWithTimeout (p.handler query schema) RETRY_CONFIG.timeout p.name with
      | resolved r =>
          by_cases hr : r.success = true
          · simp [hr]
          · have h2 := ih
              (log1 ++
                [{ provider := p.name
                   error := orFalsyOpt r.error "Unknown error"
                   duration := min (p.handler query schema).duration RETRY_CONFIG.timeout }])
              (log2 ++
                [{ provider := p.name
                   error := orFalsyOpt r.error "Unknown error"
                   duration := min (p.handler query schema).duration RETRY_CONFIG.timeout }])
              (by simp [h])
            simp [hr, h2]
      | thrown e =>
          have h2 := ih
            (log1 ++
              [{ provider := p.name
                 error := orFalsy e.message "Unknown exception"
                 duration := min (p.handler query schema).duration RETRY_CONFIG.timeout }])
            (log2 ++
              [{ provider := p.name
                 error := orFalsy e.message "Unknown exception"
                 duration := min (p.handler query schema).duration RETRY_CONFIG.timeout }])
            (by simp [h])
          simp [ite_self, h2]

/-- A provider whose promise does not settle before the timeout is recorded
with the timeout error message and the timeout as duration. -/
lemma attemptRecordOf_slow (p : ProviderSpec) (query : String)
    (schema : SpreadsheetSchema)
    (h : RETRY_CONFIG.timeout ≤ (p.handler query schema).duration) :
    attemptRecordOf p query schema =
      { provider := p.name,
        error := p.name ++ " request timeout after "
          ++ toString RETRY_CONFIG.timeout ++ "ms",
        duration := RETRY_CONFIG.timeout } := by
  unfold attemptRecordOf attemptOutcomeOf executeWithTimeout
  rw [if_neg (by omega)]
  have hne := timeout_message_ne_empty p.name (toString RETRY_CONFIG.timeout)
  simp [orFalsy, hne, Nat.min_eq_right h]

/-- Replacing a provider that cannot settle before the timeout by the
surrogate that immediately returns a failure carrying the timeout error does
not change the loop's result, wherever the provider sits in the list. -/
lemma runWaterfall_slow_is_timeout_failure (sf : JSError → Bool) (query : String)
    (schema : SpreadsheetSchema) (p : ProviderSpec) (post : List ProviderSpec)
    (h : RETRY_CONFIG.timeout ≤ (p.handler query schema).duration) :
    ∀ (pre : List ProviderSpec) (log : List AttemptRecord),
      runWaterfall sf query schema (pre ++ p :: post) log =
        runWaterfall sf query schema (pre ++ timeoutSurrogate p :: post) log := by
  intro pre
  induction pre with
  | nil =>
      intro log
      have hE : executeWithTimeout (p.handler query schema) RETRY_CONFIG.timeout p.name
          = .thrown { message := p.name ++ " request timeout after "
              ++ toString RETRY_CONFIG.timeout ++ "ms", status := none } := by
        unfold executeWithTimeout
        rw [if_neg (by omega)]
      have hE2 : executeWithTimeout ((timeoutSurrogate p).handler query schema)
          RETRY_CONFIG.timeout (timeoutSurrogate p).name
          = .resolved
              { success := false
                type := "error"
                error := some (p.name ++ " request timeout after "
                  ++ toString RETRY_CONFIG.timeout ++ "ms") } := rfl
      rw [List.nil_append, List.nil_append, runWaterfall_cons, runWaterfall_cons, hE, hE2]
      have hne := timeout_message_ne_empty p.name (toString RETRY_CONFIG.timeout)
      have h2 := runWaterfall_log_proj sf query schema post
        (log ++
          [{ provider := p.name
             error := orFalsy (p.name ++ " request timeout after "
               ++ toString RETRY_CONFIG.timeout ++ "ms") "Unknown exception"
             duration := min (p.handler query schema).duration RETRY_CONFIG.timeout }])
        (log ++
          [{ provider := (timeoutSurrogate p).name
             error := orFalsyOpt (some (p.name ++ " request timeout after "
               ++ toString RETRY_CONFIG.timeout ++ "ms")) "Unknown error"
             duration := min ((timeoutSurrogate p).handler query schema).duration
               RETRY_CONFIG.timeout }])
        (by simp [orFalsy, orFalsyOpt, hne, timeoutSurrogate])
      simp only [ite_self, Bool.false_eq_true, if_false, h2, timeoutSurrogate]
  | cons a pre ih =>
      intro log
      rw [List.cons_append, List.cons_append, runWaterfall_cons, runWaterfall_cons]
      cases hE : executeWithTimeout (a.handler query schema) RETRY_CONFIG.timeout a.name with
      | resolved r =>
          by_cases hr : r.success = true
          · simp [hr]
          · simp [hr, ih]
      | thrown e =>
          simp [ite_self, ih]

/-- C5.  A fixed 15-second timeout races every attempt: a provider whose
promise does not settle within `RETRY_CONFIG.timeout` (15000 ms) is recorded
with the timeout error message, and the orchestration result is identical to
the one obtained by replacing that provider with one that immediately returns
a failure carrying that timeout error — in particular the slow adapter's
eventual outcome, which the hypothesis leaves arbitrary, never influences the
result, and the orchestrator advances to the adapters after it. -/
theorem waterfall_timeout_advances (pre post : List ProviderSpec) (p : ProviderSpec)
    (sf : JSError → Bool) (query : String) (schema : SpreadsheetSchema)
    (h : RETRY_CONFIG.timeout ≤ (p.handler query schema).duration) :
    attemptRecordOf p query schema =
      { provider := p.name,
        error := p.name ++ " request timeout after "
          ++ toString RETRY_CONFIG.timeout ++ "ms",
        duration := RETRY_CONFIG.timeout } ∧
    makeAIRequestWithFallback (pre ++ p :: post) sf query schema =
      makeAIRequestWithFallback (pre ++ timeoutSurrogate p :: post) sf query schema := by
  refine ⟨attemptRecordOf_slow p query schema h, ?_⟩
  unfold makeAIRequestWithFallback
  by_cases hv : validateSchemaOnly schema = false
  · rw [if_pos hv, if_pos hv]
  · rw [if_neg hv, if_neg hv]
    exact runWaterfall_slow_is_timeout_failure sf query schema p post h pre []

/-- C5 (witness).  A single adapter that would eventually succeed but only
settles exactly at the timeout: it is recorded as a timeout failure and the
orchestration result equals that of its timeout surrogate. -/
theorem waterfall_timeout_advances_witness :
    RETRY_CONFIG.timeout ≤
      (({ name := "Groq", description := "Fastest response time",
          handler := fun _ _ =>
            { duration := 15000,
              outcome := .resolved { success := true, type := "formula" } } } :
        ProviderSpec).handler "sum column A"
        { headers := ["A"], columnTypes := [("A", "string")], sampleData := none }).duration ∧
    (attemptRecordOf
        { name := "Groq", description := "Fastest response time",
          handler := fun _ _ =>
            { duration := 15000,
              outcome := .resolved { success := true, type := "formula" } } }
        "sum column A"
        { headers := ["A"], columnTypes := [("A", "string")], sampleData := none } =
      { provider := "Groq",
        error := "Groq request timeout after 15000ms",
        duration := 15000 } ∧
    makeAIRequestWithFallback
        [{ name := "Groq", description := "Fastest response time",
           handler := fun _ _ =>
             { duration := 15000,
               outcome := .resolved { success := true, type := "formula" } } }]
        shouldFallback "sum column A"
        { headers := ["A"], columnTypes := [("A", "string")], sampleData := none } =
      makeAIRequestWithFallback
        [timeoutSurrogate
          { name := "Groq", description := "Fastest response time",
            handler := fun _ _ =>
              { duration := 15000,
                outcome := .resolved { success := true, type := "formula" } } }]
        shouldFallback "sum column A"
        { headers := ["A"], columnTypes := [("A", "string")], sampleData := none }) :=
  ⟨by decide,
   waterfall_timeout_advances [] []
     { name := "Groq", description := "Fastest response time",
       handler := fun _ _ =>
         { duration := 15000,
           outcome := .resolved { success := true, type := "formula" } } }
     shouldFallback "sum column A"
     { headers := ["A"], columnTypes := [("A", "string")], sampleData := none }
     (by decide)⟩

/-- The loop never consults the fallback classifier to decide anything: both
branches of its `if` continue with the next provider, so any two classifiers
yield identical results. -/
lemma runWaterfall_sf_irrelevant (query : String) (schema : SpreadsheetSchema)
    (sf1 sf2 : JSError → Bool) :
    ∀ (providers : List ProviderSpec) (log : List AttemptRecord),
      runWaterfall sf1 query schema providers log =
        runWaterfall sf2 query schema providers log := by
  intro providers
  induction providers with
  | nil => intro log; rw [runWaterfall_nil, runWaterfall_nil]
  | cons p rest ih =>
      intro log
      rw [runWaterfall_cons, runWaterfall_cons]
      cases hE : executeWithTimeout (p.handler query schema) RETRY_CONFIG.timeout p.name with
      | resolved r =>
          by_cases hr : r.success = true
          · simp [hr]
          · simp [hr, ih]
      | thrown e =>
          simp [ite_self, ih]

/-- C10.  The fast-fail classification is vestigial: for every provider list,
query and schema, the orchestrator run with the real `shouldFallback`
classifier returns a result equal to the run with any constant classifier —
`shouldFallback` (HTTP 429/500/502/503/504, or messages containing
`rate limit`, `timeout`, `unavailable`, `quota`) affects neither control flow
nor the returned response nor the invocation trace. -/
theorem waterfall_classification_vestigial (providers : List ProviderSpec)
    (query : String) (schema : SpreadsheetSchema) (c : Bool) :
    makeAIRequestWithFallback providers shouldFallback query schema =
      makeAIRequestWithFallback providers (fun _ => c) query schema := by
  unfold makeAIRequestWithFallback
  by_cases hv : validateSchemaOnly schema = false
  · rw [if_pos hv, if_pos hv]
  · rw [if_neg hv, if_neg hv]
    exact runWaterfall_sf_irrelevant query schema shouldFallback (fun _ => c) providers []

end ExcelManager

